import Mathlib

/-!
# Environment registration of the import-export CLI (`cmd/addEnv.go`)

A shallow embedding of `addEnv` and of the process state it reads and writes:
the package-level flag `isDefaultTokenEndpointSet`, the main configuration file
and the console.  The helpers of package `utils` that `addEnv` calls are not
part of the embedded source; the two token-endpoint derivations are taken as
parameters (`Utils`), the configuration-store helpers are modelled from the
specification.
-/

namespace ApimTooling

/-! ## Data model -/

/-- Record `utils.EnvEndpoints`, with the six fields `addEnv.go` reads and writes.
The Go zero value of every field is the empty string. -/
structure EnvEndpoints where
  ApiManagerEndpoint : String
  RegistrationEndpoint : String
  PublisherEndpoint : String
  DevPortalEndpoint : String
  AdminEndpoint : String
  TokenEndpoint : String
deriving DecidableEq

/-- The Go zero value `utils.EnvEndpoints{}`. -/
def EnvEndpoints.zero : EnvEndpoints :=
  { ApiManagerEndpoint := "", RegistrationEndpoint := "", PublisherEndpoint := "",
    DevPortalEndpoint := "", AdminEndpoint := "", TokenEndpoint := "" }

/-- A Go `map[string]utils.EnvEndpoints`, kept as an association list with at most
one binding per key as long as it is only changed through `mapAssign`. -/
abbrev EnvMap := List (String × EnvEndpoints)

/-- Map read `m[k]` with the presence flag: the record bound to `k`, if any. -/
def mapLookup : EnvMap → String → Option EnvEndpoints
  | [], _ => none
  | (k', v') :: rest, k => if k' = k then some v' else mapLookup rest k

/-- Map assignment `m[k] = v`: replaces the binding of `k`, or adds one. -/
def mapAssign : EnvMap → String → EnvEndpoints → EnvMap
  | [], k, v => [(k, v)]
  | (k', v') :: rest, k, v =>
    if k' = k then (k, v) :: rest else (k', v') :: mapAssign rest k v

/-- The part of `utils.MainConfig` that `addEnv` touches: the environment mapping. -/
structure MainConfig where
  Environments : EnvMap
deriving DecidableEq

/-- What the process writes to the console, in order. -/
inductive Output where
  | printf (text : String)
  | showHelpCommandTip (cmdLiteral : String)
deriving DecidableEq

/-- The state a call of `addEnv` runs in: the package-level variable
`isDefaultTokenEndpointSet`, the content of the configuration file that
`mainConfigFilePath` designates, and the console output so far.  The model
follows one configuration file: the path is an argument of the store helpers as
in the source, and it shows in the duplicate error message only. -/
structure ProcessState where
  isDefaultTokenEndpointSet : Bool
  mainConfigFile : MainConfig
  console : List Output
deriving DecidableEq

/-- The two derivation helpers of package `utils`, whose bodies are not in the
embedded source: they are parameters of the model. -/
structure Utils where
  GetTokenEndPointFromAPIMEndpoint : String → String
  GetTokenEndPointFromPublisherEndpoint : String → String

/-- The constant `addEnvCmdLiteral`. -/
def addEnvCmdLiteral : String := "add-env"

/-- Modelled from the spec: `utils.EnvExistsInMainConfigFile` is not in the source;
the store "checks name collisions" against "the current set of registered
environments", so it answers whether the name has a binding in the mapping. -/
def EnvExistsInMainConfigFile (envName : String) (_mainConfigFilePath : String)
    (s : ProcessState) : Bool :=
  (mapLookup s.mainConfigFile.Environments envName).isSome

/-- Modelled from the spec: `utils.GetMainConfigFromFile` is not in the source;
the store "supplies the current set of registered environments". -/
def GetMainConfigFromFile (_mainConfigFilePath : String) (s : ProcessState) : MainConfig :=
  s.mainConfigFile

/-- Modelled from the spec: `utils.WriteConfigFile` is not in the source; the store
"persists the updated set back to durable storage". -/
def WriteConfigFile (mainConfig : MainConfig) (_mainConfigFilePath : String)
    (s : ProcessState) : ProcessState :=
  { s with mainConfigFile := mainConfig }

/-- Modelled from the spec: `utils.ShowHelpCommandTip` is not in the source; it
"surfaces a help hint", recorded as one console event. -/
def ShowHelpCommandTip (cmdLiteral : String) (s : ProcessState) : ProcessState :=
  { s with console := s.console ++ [Output.showHelpCommandTip cmdLiteral] }

/-- The call `fmt.Printf` with its format already applied. -/
def Printf (text : String) (s : ProcessState) : ProcessState :=
  { s with console := s.console ++ [Output.printf text] }

/-- The text printed at line 112 for the token endpoint `tokenEndpoint`. -/
def defaultTokenMessage (tokenEndpoint : String) : String :=
  "Default token endpoint '" ++ tokenEndpoint ++ "' is added as the token endpoint \n"

/-- What a call of `addEnv` leaves behind: the returned `error` (`none` is `nil`),
the caller's `envEndpoints` struct (passed by pointer, so the assignment of the
token endpoint is visible to the caller) and the process state. -/
structure AddEnvResult where
  err : Option String
  envEndpoints : EnvEndpoints
  state : ProcessState
deriving DecidableEq

/-! ## The operation -/

/-- Lines 103-113 of `addEnv`: when the token endpoint is empty, the two guarded
derivations and the unconditional print that follows them. -/
def assignDefaultTokenEndpoint (U : Utils) (envEndpoints : EnvEndpoints)
    (s : ProcessState) : EnvEndpoints × ProcessState :=
  if envEndpoints.TokenEndpoint = "" then
    let a : EnvEndpoints × ProcessState :=
      if envEndpoints.ApiManagerEndpoint ≠ "" ∧ s.isDefaultTokenEndpointSet = false then
        ({ envEndpoints with
            TokenEndpoint :=
              U.GetTokenEndPointFromAPIMEndpoint envEndpoints.ApiManagerEndpoint },
         { s with isDefaultTokenEndpointSet := true })
      else (envEndpoints, s)
    let b : EnvEndpoints × ProcessState :=
      if a.1.PublisherEndpoint ≠ "" ∧ a.2.isDefaultTokenEndpointSet = false then
        ({ a.1 with
            TokenEndpoint :=
              U.GetTokenEndPointFromPublisherEndpoint a.1.PublisherEndpoint },
         a.2)
      else a
    (b.1, Printf (defaultTokenMessage b.1.TokenEndpoint) b.2)
  else (envEndpoints, s)

/-- Lines 131-153 of `addEnv`: the record that is stored, built from the zero value
by copying the token endpoint and every other field that is non-empty. -/
def validatedEnvEndpoints (envEndpoints : EnvEndpoints) : EnvEndpoints :=
  let v0 : EnvEndpoints := { EnvEndpoints.zero with TokenEndpoint := envEndpoints.TokenEndpoint }
  let v1 := if envEndpoints.ApiManagerEndpoint ≠ "" then
    { v0 with ApiManagerEndpoint := envEndpoints.ApiManagerEndpoint } else v0
  let v2 := if envEndpoints.RegistrationEndpoint ≠ "" then
    { v1 with RegistrationEndpoint := envEndpoints.RegistrationEndpoint } else v1
  let v3 := if envEndpoints.PublisherEndpoint ≠ "" then
    { v2 with PublisherEndpoint := envEndpoints.PublisherEndpoint } else v2
  let v4 := if envEndpoints.DevPortalEndpoint ≠ "" then
    { v3 with DevPortalEndpoint := envEndpoints.DevPortalEndpoint } else v3
  if envEndpoints.AdminEndpoint ≠ "" then
    { v4 with AdminEndpoint := envEndpoints.AdminEndpoint } else v4

/-- Function `addEnv` (lines 96-161). -/
def addEnv (U : Utils) (envName : String) (envEndpoints : EnvEndpoints)
    (mainConfigFilePath : String) (s : ProcessState) : AddEnvResult :=
  if envName = "" then
    ⟨some "Name of the environment cannot be blank", envEndpoints, s⟩
  else
    let d := assignDefaultTokenEndpoint U envEndpoints s
    let envEndpoints := d.1
    let s := d.2
    if envEndpoints.ApiManagerEndpoint = "" ∧
        (envEndpoints.AdminEndpoint = "" ∨ envEndpoints.DevPortalEndpoint = "" ∨
          envEndpoints.PublisherEndpoint = "" ∨ envEndpoints.RegistrationEndpoint = "" ∨
          envEndpoints.TokenEndpoint = "") then
      ⟨some "Endpoint(s) cannot be blank", envEndpoints, ShowHelpCommandTip addEnvCmdLiteral s⟩
    else if EnvExistsInMainConfigFile envName mainConfigFilePath s = true then
      ⟨some ("Environment '" ++ envName ++ "' already exists in " ++ mainConfigFilePath),
        envEndpoints, s⟩
    else
      let mainConfig := GetMainConfigFromFile mainConfigFilePath s
      let mainConfig : MainConfig :=
        { mainConfig with
            Environments :=
              mapAssign mainConfig.Environments envName (validatedEnvEndpoints envEndpoints) }
      let s := WriteConfigFile mainConfig mainConfigFilePath s
      let s := Printf ("Successfully added environment '" ++ envName ++ "'\n") s
      ⟨none, envEndpoints, s⟩

/-- The state of a process that has not called `addEnv` yet, on a configuration
file with the environments `envs`: the flag has its initial value `false`. -/
def freshProcess (envs : EnvMap) : ProcessState :=
  { isDefaultTokenEndpointSet := false, mainConfigFile := { Environments := envs },
    console := [] }

/-- Modelled from the spec: the bodies of `utils.GetTokenEndPointFromAPIMEndpoint` and
`utils.GetTokenEndPointFromPublisherEndpoint` are not in the source; the spec's
derivation rule is to "append the platform's standard token-path suffix".  With
the suffix "/oauth2/token" this pair is used to evaluate concrete calls only; the
general theorems hold for every pair of derivations. -/
def sampleUtils : Utils :=
  { GetTokenEndPointFromAPIMEndpoint := fun e => e ++ "/oauth2/token",
    GetTokenEndPointFromPublisherEndpoint := fun e => e ++ "/oauth2/token" }

/-- Message of the incomplete-endpoints error (line 120). -/
def errIncompleteEndpoints : String := "Endpoint(s) cannot be blank"

/-- Message of the duplicate-environment error (line 126). -/
def errDuplicateEnvironment (envName mainConfigFilePath : String) : String :=
  "Environment '" ++ envName ++ "' already exists in " ++ mainConfigFilePath

/-! ## Notions used to state the properties -/

/-- The derivation rule in the words of the specification (section 4.1, step 2),
for a token endpoint that is empty: "derive it from apiManagerEndpoint if that is
set; otherwise, [...] if publisherEndpoint is set, derive it from the publisher
endpoint".  The result is `none` when there is nothing to derive from.  The rule
looks at the endpoints of the call only. -/
def specDerivedToken (U : Utils) (e : EnvEndpoints) : Option String :=
  if e.ApiManagerEndpoint ≠ "" then
    some (U.GetTokenEndPointFromAPIMEndpoint e.ApiManagerEndpoint)
  else if e.PublisherEndpoint ≠ "" then
    some (U.GetTokenEndPointFromPublisherEndpoint e.PublisherEndpoint)
  else none

/-- Record invariant of the data model: the API-manager endpoint is set, or the
registration, publisher, devPortal, admin and token endpoints all are. -/
def usable (r : EnvEndpoints) : Prop :=
  r.ApiManagerEndpoint ≠ "" ∨
    (r.RegistrationEndpoint ≠ "" ∧ r.PublisherEndpoint ≠ "" ∧ r.DevPortalEndpoint ≠ "" ∧
      r.AdminEndpoint ≠ "" ∧ r.TokenEndpoint ≠ "")

instance usableDecidable (r : EnvEndpoints) : Decidable (usable r) := by
  unfold usable
  infer_instance

/-- Store invariant: every record of the environment mapping is usable. -/
def storeInvariant (m : EnvMap) : Prop := ∀ p ∈ m, usable p.2

instance storeInvariantDecidable (m : EnvMap) : Decidable (storeInvariant m) := by
  unfold storeInvariant
  infer_instance

/-- One later call: name, endpoints and configuration-file path. -/
structure Call where
  envName : String
  envEndpoints : EnvEndpoints
  mainConfigFilePath : String
deriving DecidableEq

/-- The process state after a sequence of calls of `addEnv`, one after the other. -/
def runCalls (U : Utils) : List Call → ProcessState → ProcessState
  | [], s => s
  | c :: cs, s => runCalls U cs (addEnv U c.envName c.envEndpoints c.mainConfigFilePath s).state

/-! ## Lemmas on the map operations and on the two phases of `addEnv` -/

/-- Reading a key right after assigning it gives the assigned record. -/
theorem mapLookup_mapAssign_self (m : EnvMap) (k : String) (v : EnvEndpoints) :
    mapLookup (mapAssign m k v) k = some v := by
  induction m with
  | nil => simp [mapAssign, mapLookup]
  | cons p rest ih =>
    obtain ⟨k', v'⟩ := p
    by_cases h : k' = k
    · simp [mapAssign, mapLookup, h]
    · simp [mapAssign, mapLookup, h, ih]

/-- Assigning one key does not change what any other key reads. -/
theorem mapLookup_mapAssign_ne (m : EnvMap) (k k2 : String) (v : EnvEndpoints)
    (hne : k2 ≠ k) : mapLookup (mapAssign m k v) k2 = mapLookup m k2 := by
  induction m with
  | nil =>
    have h : ¬ k = k2 := fun h => hne h.symm
    simp [mapAssign, mapLookup, h]
  | cons p rest ih =>
    obtain ⟨k', v'⟩ := p
    by_cases h : k' = k
    · subst h
      have h2 : ¬ k' = k2 := fun h => hne h.symm
      simp [mapAssign, mapLookup, h2]
    · by_cases h3 : k' = k2
      · subst h3
        simp [mapAssign, mapLookup, h]
      · simp [mapAssign, mapLookup, h, h3, ih]

/-- Assigning a key that has no binding adds exactly one binding. -/
theorem mapAssign_of_lookup_none (m : EnvMap) (k : String) (v : EnvEndpoints)
    (hnone : mapLookup m k = none) : mapAssign m k v = m ++ [(k, v)] := by
  induction m with
  | nil => simp [mapAssign]
  | cons p rest ih =>
    obtain ⟨k', v'⟩ := p
    by_cases h : k' = k
    · simp [mapLookup, h] at hnone
    · simp [mapLookup, h] at hnone
      simp [mapAssign, h, ih hnone]

/-- The stored record has the caller's six fields: an empty field is left at the
zero value, which is the empty string again. -/
theorem validatedEnvEndpoints_eq (e : EnvEndpoints) : validatedEnvEndpoints e = e := by
  obtain ⟨a, r, p, d, ad, t⟩ := e
  simp only [validatedEnvEndpoints, EnvEndpoints.zero]
  by_cases ha : a = "" <;> by_cases hr : r = "" <;> by_cases hp : p = "" <;>
    by_cases hd : d = "" <;> by_cases had : ad = "" <;> simp [ha, hr, hp, hd, had]

/-- An explicit token endpoint skips lines 103-113 altogether. -/
theorem assignDefault_of_token (U : Utils) (e : EnvEndpoints) (s : ProcessState)
    (ht : e.TokenEndpoint ≠ "") : assignDefaultTokenEndpoint U e s = (e, s) := by
  simp [assignDefaultTokenEndpoint, ht]

/-- Empty token, flag unset, API-manager endpoint given: the API-manager derivation
is taken, the flag is set, the publisher derivation is skipped. -/
theorem assignDefault_of_apim (U : Utils) (e : EnvEndpoints) (s : ProcessState)
    (ht : e.TokenEndpoint = "") (ha : e.ApiManagerEndpoint ≠ "")
    (hf : s.isDefaultTokenEndpointSet = false) :
    assignDefaultTokenEndpoint U e s =
      ({ e with TokenEndpoint := U.GetTokenEndPointFromAPIMEndpoint e.ApiManagerEndpoint },
       Printf (defaultTokenMessage (U.GetTokenEndPointFromAPIMEndpoint e.ApiManagerEndpoint))
         { s with isDefaultTokenEndpointSet := true }) := by
  simp [assignDefaultTokenEndpoint, ht, ha, hf]

/-- Empty token, flag unset, no API-manager endpoint, publisher endpoint given: the
publisher derivation is taken and the flag stays unset. -/
theorem assignDefault_of_publisher (U : Utils) (e : EnvEndpoints) (s : ProcessState)
    (ht : e.TokenEndpoint = "") (ha : e.ApiManagerEndpoint = "")
    (hp : e.PublisherEndpoint ≠ "") (hf : s.isDefaultTokenEndpointSet = false) :
    assignDefaultTokenEndpoint U e s =
      ({ e with
          TokenEndpoint := U.GetTokenEndPointFromPublisherEndpoint e.PublisherEndpoint },
       Printf (defaultTokenMessage (U.GetTokenEndPointFromPublisherEndpoint e.PublisherEndpoint))
         s) := by
  simp [assignDefaultTokenEndpoint, ht, ha, hp, hf]

/-- Empty token and nothing to derive from, or the flag already set: the token
endpoint stays empty, and the message of line 112 is printed all the same. -/
theorem assignDefault_of_nothing (U : Utils) (e : EnvEndpoints) (s : ProcessState)
    (ht : e.TokenEndpoint = "")
    (hn : s.isDefaultTokenEndpointSet = true ∨
      (e.ApiManagerEndpoint = "" ∧ e.PublisherEndpoint = "")) :
    assignDefaultTokenEndpoint U e s = (e, Printf (defaultTokenMessage "") s) := by
  rcases hn with hf | ⟨ha, hp⟩
  · simp [assignDefaultTokenEndpoint, ht, hf]
  · simp [assignDefaultTokenEndpoint, ht, ha, hp]

/-- The four outcomes of lines 103-113. -/
theorem assignDefault_cases (U : Utils) (e : EnvEndpoints) (s : ProcessState) :
    assignDefaultTokenEndpoint U e s = (e, s) ∨
    assignDefaultTokenEndpoint U e s = (e, Printf (defaultTokenMessage "") s) ∧
      e.TokenEndpoint = "" ∨
    assignDefaultTokenEndpoint U e s =
      ({ e with
          TokenEndpoint := U.GetTokenEndPointFromPublisherEndpoint e.PublisherEndpoint },
       Printf (defaultTokenMessage (U.GetTokenEndPointFromPublisherEndpoint e.PublisherEndpoint))
         s) ∨
    assignDefaultTokenEndpoint U e s =
      ({ e with TokenEndpoint := U.GetTokenEndPointFromAPIMEndpoint e.ApiManagerEndpoint },
       Printf (defaultTokenMessage (U.GetTokenEndPointFromAPIMEndpoint e.ApiManagerEndpoint))
         { s with isDefaultTokenEndpointSet := true }) := by
  by_cases ht : e.TokenEndpoint = ""
  · by_cases hf : s.isDefaultTokenEndpointSet = false
    · by_cases ha : e.ApiManagerEndpoint = ""
      · by_cases hp : e.PublisherEndpoint = ""
        · exact Or.inr (Or.inl ⟨assignDefault_of_nothing U e s ht (Or.inr ⟨ha, hp⟩), ht⟩)
        · exact Or.inr (Or.inr (Or.inl (assignDefault_of_publisher U e s ht ha hp hf)))
      · exact Or.inr (Or.inr (Or.inr (assignDefault_of_apim U e s ht ha hf)))
    · exact Or.inr (Or.inl ⟨assignDefault_of_nothing U e s ht (Or.inl (by simpa using hf)), ht⟩)
  · exact Or.inl (assignDefault_of_token U e s ht)

/-- Lines 103-113 change no field of the endpoint struct but the token endpoint. -/
theorem assignDefault_fields (U : Utils) (e : EnvEndpoints) (s : ProcessState) :
    (assignDefaultTokenEndpoint U e s).1 =
      { e with TokenEndpoint := (assignDefaultTokenEndpoint U e s).1.TokenEndpoint } := by
  rcases assignDefault_cases U e s with h | ⟨h, _⟩ | h | h <;> rw [h]

/-- Lines 103-113 leave the configuration file alone. -/
theorem assignDefault_mainConfigFile (U : Utils) (e : EnvEndpoints) (s : ProcessState) :
    (assignDefaultTokenEndpoint U e s).2.mainConfigFile = s.mainConfigFile := by
  rcases assignDefault_cases U e s with h | ⟨h, _⟩ | h | h <;> rw [h] <;> rfl

/-- The flag is never reset by lines 103-113. -/
theorem assignDefault_flag_mono (U : Utils) (e : EnvEndpoints) (s : ProcessState)
    (hf : s.isDefaultTokenEndpointSet = true) :
    (assignDefaultTokenEndpoint U e s).2.isDefaultTokenEndpointSet = true := by
  rcases assignDefault_cases U e s with h | ⟨h, _⟩ | h | h <;> rw [h] <;> simp [Printf, hf]

/-- The three exits of `addEnv` after the name check, in terms of the result `d` of
lines 103-113. -/
theorem addEnv_cases (U : Utils) (envName : String) (e : EnvEndpoints) (path : String)
    (s : ProcessState) (hname : envName ≠ "") :
    let d := assignDefaultTokenEndpoint U e s
    addEnv U envName e path s =
      if d.1.ApiManagerEndpoint = "" ∧
          (d.1.AdminEndpoint = "" ∨ d.1.DevPortalEndpoint = "" ∨
            d.1.PublisherEndpoint = "" ∨ d.1.RegistrationEndpoint = "" ∨
            d.1.TokenEndpoint = "") then
        ⟨some errIncompleteEndpoints, d.1, ShowHelpCommandTip addEnvCmdLiteral d.2⟩
      else if (mapLookup s.mainConfigFile.Environments envName).isSome = true then
        ⟨some (errDuplicateEnvironment envName path), d.1, d.2⟩
      else
        ⟨none, d.1,
          Printf ("Successfully added environment '" ++ envName ++ "'\n")
            { d.2 with
                mainConfigFile :=
                  { Environments := s.mainConfigFile.Environments ++ [(envName, d.1)] } }⟩ := by
  intro d
  have hcfg : d.2.mainConfigFile = s.mainConfigFile := assignDefault_mainConfigFile U e s
  simp only [addEnv, hname, if_false, EnvExistsInMainConfigFile, GetMainConfigFromFile,
    WriteConfigFile, errIncompleteEndpoints, errDuplicateEnvironment, validatedEnvEndpoints_eq]
  split_ifs with h1 h2 h3 h4
  · rfl
  · rfl
  · exact absurd (hcfg ▸ h2) h3
  · exact absurd (hcfg ▸ h4) h2
  · have hnone : mapLookup s.mainConfigFile.Environments envName = none := by
      cases hl : mapLookup s.mainConfigFile.Environments envName with
      | none => rfl
      | some v => exact absurd (by simp [hl]) h4
    rw [hcfg, mapAssign_of_lookup_none _ _ _ hnone]

/-- After the name check, the caller's struct is what lines 103-113 made of it. -/
theorem addEnv_envEndpoints (U : Utils) (envName : String) (e : EnvEndpoints) (path : String)
    (s : ProcessState) (hname : envName ≠ "") :
    (addEnv U envName e path s).envEndpoints = (assignDefaultTokenEndpoint U e s).1 := by
  have hc := addEnv_cases U envName e path s hname
  simp only at hc
  rw [hc]
  split_ifs <;> rfl

/-- After the name check, the flag is what lines 103-113 made of it. -/
theorem addEnv_flag (U : Utils) (envName : String) (e : EnvEndpoints) (path : String)
    (s : ProcessState) (hname : envName ≠ "") :
    (addEnv U envName e path s).state.isDefaultTokenEndpointSet =
      (assignDefaultTokenEndpoint U e s).2.isDefaultTokenEndpointSet := by
  have hc := addEnv_cases U envName e path s hname
  simp only at hc
  rw [hc]
  split_ifs <;> rfl

/-- A failing call leaves the configuration file as it was. -/
theorem addEnv_error_keeps_store (U : Utils) (envName : String) (e : EnvEndpoints)
    (path : String) (s : ProcessState) (herr : (addEnv U envName e path s).err ≠ none) :
    (addEnv U envName e path s).state.mainConfigFile = s.mainConfigFile := by
  by_cases hname : envName = ""
  · subst hname
    simp [addEnv]
  · have hc := addEnv_cases U envName e path s hname
    have hcfg := assignDefault_mainConfigFile U e s
    simp only at hc
    rw [hc] at herr ⊢
    split_ifs at herr ⊢ with h1 h2
    · exact hcfg
    · exact hcfg
    · exact absurd rfl herr

/-- A successful call: the name is non-empty and was not registered, the
completeness check passed on the struct `d` left by lines 103-113, and the
configuration file gets the one binding `envName -> d` appended. -/
theorem addEnv_success (U : Utils) (envName : String) (e : EnvEndpoints)
    (path : String) (s : ProcessState) (hok : (addEnv U envName e path s).err = none) :
    envName ≠ "" ∧
    mapLookup s.mainConfigFile.Environments envName = none ∧
    ((assignDefaultTokenEndpoint U e s).1.ApiManagerEndpoint ≠ "" ∨
      ((assignDefaultTokenEndpoint U e s).1.AdminEndpoint ≠ "" ∧
        (assignDefaultTokenEndpoint U e s).1.DevPortalEndpoint ≠ "" ∧
        (assignDefaultTokenEndpoint U e s).1.PublisherEndpoint ≠ "" ∧
        (assignDefaultTokenEndpoint U e s).1.RegistrationEndpoint ≠ "" ∧
        (assignDefaultTokenEndpoint U e s).1.TokenEndpoint ≠ "")) ∧
    (addEnv U envName e path s).state.mainConfigFile.Environments =
      s.mainConfigFile.Environments ++ [(envName, (assignDefaultTokenEndpoint U e s).1)] := by
  have hname : envName ≠ "" := by
    intro h
    subst h
    simp [addEnv] at hok
  have hc := addEnv_cases U envName e path s hname
  simp only at hc
  rw [hc] at hok ⊢
  split_ifs at hok ⊢ with h1 h2
  refine ⟨hname, ?_, ?_, rfl⟩
  · cases hl : mapLookup s.mainConfigFile.Environments envName with
    | none => rfl
    | some v => exact absurd (by simp [hl]) h2
  · by_cases ha : (assignDefaultTokenEndpoint U e s).1.ApiManagerEndpoint = ""
    · right
      simp only [ha, true_and, not_or] at h1
      exact h1
    · exact Or.inl ha

/-- A call with a non-empty, registered name whose struct `d` passes the
completeness check returns the duplicate error and leaves the file alone. -/
theorem addEnv_registered (U : Utils) (envName : String) (e : EnvEndpoints)
    (path : String) (s : ProcessState) (hname : envName ≠ "")
    (hreg : (mapLookup s.mainConfigFile.Environments envName).isSome = true)
    (hcomplete : (assignDefaultTokenEndpoint U e s).1.ApiManagerEndpoint ≠ "" ∨
      ((assignDefaultTokenEndpoint U e s).1.AdminEndpoint ≠ "" ∧
        (assignDefaultTokenEndpoint U e s).1.DevPortalEndpoint ≠ "" ∧
        (assignDefaultTokenEndpoint U e s).1.PublisherEndpoint ≠ "" ∧
        (assignDefaultTokenEndpoint U e s).1.RegistrationEndpoint ≠ "" ∧
        (assignDefaultTokenEndpoint U e s).1.TokenEndpoint ≠ "")) :
    (addEnv U envName e path s).err =
      some ("Environment '" ++ envName ++ "' already exists in " ++ path) ∧
    (addEnv U envName e path s).state.mainConfigFile = s.mainConfigFile := by
  have hc := addEnv_cases U envName e path s hname
  have hcfg := assignDefault_mainConfigFile U e s
  simp only at hc
  have hncond : ¬ ((assignDefaultTokenEndpoint U e s).1.ApiManagerEndpoint = "" ∧
      ((assignDefaultTokenEndpoint U e s).1.AdminEndpoint = "" ∨
        (assignDefaultTokenEndpoint U e s).1.DevPortalEndpoint = "" ∨
        (assignDefaultTokenEndpoint U e s).1.PublisherEndpoint = "" ∨
        (assignDefaultTokenEndpoint U e s).1.RegistrationEndpoint = "" ∨
        (assignDefaultTokenEndpoint U e s).1.TokenEndpoint = "")) := by
    rintro ⟨ha, hm⟩
    rcases hcomplete with h | ⟨h1, h2, h3, h4, h5⟩
    · exact h ha
    · rcases hm with h | h | h | h | h
      · exact h1 h
      · exact h2 h
      · exact h3 h
      · exact h4 h
      · exact h5 h
  rw [hc, if_neg hncond, if_pos hreg]
  exact ⟨rfl, hcfg⟩

/-- The struct left by lines 103-113 depends on the state through the flag only. -/
theorem assignDefault_fst_congr (U : Utils) (e : EnvEndpoints) (s s2 : ProcessState)
    (hflag : s.isDefaultTokenEndpointSet = s2.isDefaultTokenEndpointSet) :
    (assignDefaultTokenEndpoint U e s).1 = (assignDefaultTokenEndpoint U e s2).1 := by
  by_cases ht : e.TokenEndpoint = ""
  · by_cases hf : s.isDefaultTokenEndpointSet = false
    · have hf2 : s2.isDefaultTokenEndpointSet = false := hflag ▸ hf
      by_cases ha : e.ApiManagerEndpoint = ""
      · by_cases hp : e.PublisherEndpoint = ""
        · rw [assignDefault_of_nothing U e s ht (Or.inr ⟨ha, hp⟩),
            assignDefault_of_nothing U e s2 ht (Or.inr ⟨ha, hp⟩)]
        · rw [assignDefault_of_publisher U e s ht ha hp hf,
            assignDefault_of_publisher U e s2 ht ha hp hf2]
      · rw [assignDefault_of_apim U e s ht ha hf, assignDefault_of_apim U e s2 ht ha hf2]
    · have hf1 : s.isDefaultTokenEndpointSet = true := by simpa using hf
      have hf2 : s2.isDefaultTokenEndpointSet = true := hflag ▸ hf1
      rw [assignDefault_of_nothing U e s ht (Or.inl hf1),
        assignDefault_of_nothing U e s2 ht (Or.inl hf2)]
  · rw [assignDefault_of_token U e s ht, assignDefault_of_token U e s2 ht]

/-- Without an API-manager endpoint lines 103-113 do not touch the flag. -/
theorem assignDefault_flag_of_no_apim (U : Utils) (e : EnvEndpoints) (s : ProcessState)
    (ha : e.ApiManagerEndpoint = "") :
    (assignDefaultTokenEndpoint U e s).2.isDefaultTokenEndpointSet =
      s.isDefaultTokenEndpointSet := by
  rcases assignDefault_cases U e s with h | ⟨h, _⟩ | h | h
  · rw [h]
  · rw [h]; rfl
  · rw [h]; rfl
  · by_cases ht : e.TokenEndpoint = ""
    · by_cases hp : e.PublisherEndpoint = ""
      · rw [assignDefault_of_nothing U e s ht (Or.inr ⟨ha, hp⟩)]; rfl
      · by_cases hf : s.isDefaultTokenEndpointSet = false
        · rw [assignDefault_of_publisher U e s ht ha hp hf]; rfl
        · rw [assignDefault_of_nothing U e s ht (Or.inl (by simpa using hf))]; rfl
    · rw [assignDefault_of_token U e s ht]

/-- The console after lines 103-113: the message of line 112 is appended exactly
when the token endpoint was empty at entry, and it names the token endpoint as
it is after the two guarded derivations. -/
theorem assignDefault_console (U : Utils) (e : EnvEndpoints) (s : ProcessState) :
    (assignDefaultTokenEndpoint U e s).2.console =
      s.console ++
        (if e.TokenEndpoint = "" then
          [Output.printf
            (defaultTokenMessage (assignDefaultTokenEndpoint U e s).1.TokenEndpoint)]
        else []) := by
  by_cases ht : e.TokenEndpoint = ""
  · by_cases hf : s.isDefaultTokenEndpointSet = false
    · by_cases ha : e.ApiManagerEndpoint = ""
      · by_cases hp : e.PublisherEndpoint = ""
        · rw [assignDefault_of_nothing U e s ht (Or.inr ⟨ha, hp⟩)]
          simp [ht, Printf]
        · rw [assignDefault_of_publisher U e s ht ha hp hf]
          simp [ht, Printf]
      · rw [assignDefault_of_apim U e s ht ha hf]
        simp [ht, Printf]
    · have hf1 : s.isDefaultTokenEndpointSet = true := by simpa using hf
      rw [assignDefault_of_nothing U e s ht (Or.inl hf1)]
      simp [ht, Printf]
  · rw [assignDefault_of_token U e s ht]
    simp [ht]

/-- A set flag stays set through a call of `addEnv`. -/
theorem addEnv_flag_mono (U : Utils) (envName : String) (e : EnvEndpoints) (path : String)
    (s : ProcessState) (hf : s.isDefaultTokenEndpointSet = true) :
    (addEnv U envName e path s).state.isDefaultTokenEndpointSet = true := by
  by_cases hname : envName = ""
  · subst hname
    simpa [addEnv] using hf
  · rw [addEnv_flag U envName e path s hname]
    exact assignDefault_flag_mono U e s hf

/-- A set flag stays set through any sequence of calls of `addEnv`. -/
theorem runCalls_flag_mono (U : Utils) (cs : List Call) (s : ProcessState)
    (hf : s.isDefaultTokenEndpointSet = true) :
    (runCalls U cs s).isDefaultTokenEndpointSet = true := by
  induction cs generalizing s with
  | nil => exact hf
  | cons c cs ih => exact ih _ (addEnv_flag_mono U _ _ _ s hf)

/-- With the flag set, lines 103-113 derive nothing: an empty token endpoint stays
empty and the struct is unchanged. -/
theorem assignDefault_of_flag_set (U : Utils) (e : EnvEndpoints) (s : ProcessState)
    (hf : s.isDefaultTokenEndpointSet = true) :
    (assignDefaultTokenEndpoint U e s).1 = e := by
  by_cases ht : e.TokenEndpoint = ""
  · rw [assignDefault_of_nothing U e s ht (Or.inl hf)]
  · rw [assignDefault_of_token U e s ht]

/-- The duplicate error and the incomplete-endpoints error are different messages:
they differ at the third character. -/
theorem errDuplicate_ne_errIncomplete (envName path : String) :
    "Endpoint(s) cannot be blank" ≠
      "Environment '" ++ envName ++ "' already exists in " ++ path := by
  intro h
  have h2 := congrArg String.data h
  simp only [String.data_append] at h2
  have h3 := congrArg (fun l => l.get? 2) h2
  simp at h3

/-- The console after a call of `addEnv` with a non-empty name: the message of
line 112 exactly when the token endpoint was empty at entry, naming the token
endpoint as the call leaves it in the caller's struct, followed by the help tip,
nothing, or the confirmation, according to the exit taken. -/
theorem addEnv_console (U : Utils) (envName : String) (e : EnvEndpoints) (path : String)
    (s : ProcessState) (hname : envName ≠ "") :
    (addEnv U envName e path s).state.console =
      s.console ++
        (if e.TokenEndpoint = "" then
          [Output.printf
            (defaultTokenMessage (addEnv U envName e path s).envEndpoints.TokenEndpoint)]
        else []) ++
        (if (addEnv U envName e path s).err = none then
          [Output.printf ("Successfully added environment '" ++ envName ++ "'\n")]
        else if (addEnv U envName e path s).err =
            some ("Environment '" ++ envName ++ "' already exists in " ++ path) then []
        else [Output.showHelpCommandTip "add-env"]) := by
  have hc := addEnv_cases U envName e path s hname
  have hcon := assignDefault_console U e s
  have hne := errDuplicate_ne_errIncomplete envName path
  rw [addEnv_envEndpoints U envName e path s hname]
  simp only at hc
  rw [hc]
  split_ifs with h1 h2 h3 h4 h5 h6 h7 h8 <;>
    simp_all [ShowHelpCommandTip, Printf, addEnvCmdLiteral, errDuplicateEnvironment,
      errIncompleteEndpoints]

/-- A call with a non-empty name whose struct `d` fails the completeness check
returns the incomplete-endpoints error and leaves the file alone. -/
theorem addEnv_incomplete (U : Utils) (envName : String) (e : EnvEndpoints)
    (path : String) (s : ProcessState) (hname : envName ≠ "")
    (hincomplete : (assignDefaultTokenEndpoint U e s).1.ApiManagerEndpoint = "" ∧
      ((assignDefaultTokenEndpoint U e s).1.AdminEndpoint = "" ∨
        (assignDefaultTokenEndpoint U e s).1.DevPortalEndpoint = "" ∨
        (assignDefaultTokenEndpoint U e s).1.PublisherEndpoint = "" ∨
        (assignDefaultTokenEndpoint U e s).1.RegistrationEndpoint = "" ∨
        (assignDefaultTokenEndpoint U e s).1.TokenEndpoint = "")) :
    (addEnv U envName e path s).err = some "Endpoint(s) cannot be blank" ∧
    (addEnv U envName e path s).state.mainConfigFile = s.mainConfigFile := by
  have hc := addEnv_cases U envName e path s hname
  have hcfg := assignDefault_mainConfigFile U e s
  simp only at hc
  rw [hc, if_pos hincomplete]
  exact ⟨rfl, hcfg⟩

/-! ## Theorems -/

/-- C1: with the empty environment name `addEnv` returns the error "Name of the
environment cannot be blank", for every endpoint set, every configuration-file
content and every process state (and it changes nothing). -/
theorem addEnv_blank_name (U : Utils) (envEndpoints : EnvEndpoints)
    (mainConfigFilePath : String) (s : ProcessState) :
    addEnv U "" envEndpoints mainConfigFilePath s =
      ⟨some "Name of the environment cannot be blank", envEndpoints, s⟩ := by
  simp [addEnv]

/-- Supporting fact for C2: in a process whose flag is still unset, a call with a
non-empty, not-yet-registered name, a non-empty API-manager endpoint and an empty
token endpoint succeeds, sets the flag, and stores under the name the caller's
endpoints with the token endpoint derived from the API-manager endpoint, whatever
the publisher endpoint is. -/
theorem addEnv_apim_derivation_flag_unset (U : Utils) (envName : String) (e : EnvEndpoints)
    (path : String) (s : ProcessState) (hname : envName ≠ "")
    (hfresh : EnvExistsInMainConfigFile envName path s = false)
    (hapim : e.ApiManagerEndpoint ≠ "") (htoken : e.TokenEndpoint = "")
    (hflag : s.isDefaultTokenEndpointSet = false) :
    (addEnv U envName e path s).err = none ∧
    mapLookup (addEnv U envName e path s).state.mainConfigFile.Environments envName =
      some { e with
        TokenEndpoint := U.GetTokenEndPointFromAPIMEndpoint e.ApiManagerEndpoint } ∧
    (addEnv U envName e path s).state.isDefaultTokenEndpointSet = true := by
  have hc := addEnv_cases U envName e path s hname
  have hd := assignDefault_of_apim U e s htoken hapim hflag
  have hl : mapLookup s.mainConfigFile.Environments envName = none := by
    simpa [EnvExistsInMainConfigFile] using hfresh
  simp only [hd] at hc
  rw [hc]
  simp only [hapim, false_and, if_false, hl, Option.isSome_none, Bool.false_eq_true]
  refine ⟨trivial, ?_, rfl⟩
  simp only [Printf]
  rw [← mapAssign_of_lookup_none _ _ _ hl]
  exact mapLookup_mapAssign_self _ _ _

/-- C2 (the code at the failing input): two calls in one process, both with only an
API-manager endpoint.  The first derives its token endpoint and sets the flag; the
second, for the fresh name "dev", succeeds but stores an empty token endpoint
instead of the value derived from "https://apim.com:9443". -/
theorem addEnv_apim_second_call_stores_empty_token (U : Utils) :
    (addEnv U "production"
        { EnvEndpoints.zero with ApiManagerEndpoint := "https://localhost:9443" } "cfg"
        (freshProcess [])).err = none ∧
    (addEnv U "dev" { EnvEndpoints.zero with ApiManagerEndpoint := "https://apim.com:9443" }
        "cfg"
        (addEnv U "production"
          { EnvEndpoints.zero with ApiManagerEndpoint := "https://localhost:9443" } "cfg"
          (freshProcess [])).state).err = none ∧
    mapLookup
      (addEnv U "dev" { EnvEndpoints.zero with ApiManagerEndpoint := "https://apim.com:9443" }
        "cfg"
        (addEnv U "production"
          { EnvEndpoints.zero with ApiManagerEndpoint := "https://localhost:9443" } "cfg"
          (freshProcess [])).state).state.mainConfigFile.Environments "dev" =
      some { EnvEndpoints.zero with
        ApiManagerEndpoint := "https://apim.com:9443", TokenEndpoint := "" } ∧
    mapLookup
      (addEnv U "dev" { EnvEndpoints.zero with ApiManagerEndpoint := "https://apim.com:9443" }
        "cfg"
        (addEnv U "production"
          { EnvEndpoints.zero with ApiManagerEndpoint := "https://localhost:9443" } "cfg"
          (freshProcess [])).state).state.mainConfigFile.Environments "production" =
      some { EnvEndpoints.zero with
        ApiManagerEndpoint := "https://localhost:9443",
        TokenEndpoint := U.GetTokenEndPointFromAPIMEndpoint "https://localhost:9443" } := by
  simp [addEnv, assignDefaultTokenEndpoint, EnvExistsInMainConfigFile, GetMainConfigFromFile,
    WriteConfigFile, Printf, freshProcess, EnvEndpoints.zero, mapLookup, mapAssign,
    validatedEnvEndpoints]

/-- C3: with a non-empty name, an empty API-manager endpoint and at least one of the
admin, devPortal, publisher and registration endpoints empty, `addEnv` returns the
error "Endpoint(s) cannot be blank" after the help tip, whatever the token
endpoint, the flag and the registered names are, and the configuration file is
left as it was. -/
theorem addEnv_incomplete_endpoints (U : Utils) (envName : String) (e : EnvEndpoints)
    (path : String) (s : ProcessState) (hname : envName ≠ "")
    (hapim : e.ApiManagerEndpoint = "")
    (hmiss : e.AdminEndpoint = "" ∨ e.DevPortalEndpoint = "" ∨ e.PublisherEndpoint = "" ∨
      e.RegistrationEndpoint = "") :
    (addEnv U envName e path s).err = some "Endpoint(s) cannot be blank" ∧
    (addEnv U envName e path s).state.mainConfigFile = s.mainConfigFile ∧
    (addEnv U envName e path s).state.console.getLast? =
      some (Output.showHelpCommandTip "add-env") := by
  have hc := addEnv_cases U envName e path s hname
  have hf := assignDefault_fields U e s
  have hcfg := assignDefault_mainConfigFile U e s
  simp only at hc
  have hcond : (assignDefaultTokenEndpoint U e s).1.ApiManagerEndpoint = "" ∧
      ((assignDefaultTokenEndpoint U e s).1.AdminEndpoint = "" ∨
        (assignDefaultTokenEndpoint U e s).1.DevPortalEndpoint = "" ∨
        (assignDefaultTokenEndpoint U e s).1.PublisherEndpoint = "" ∨
        (assignDefaultTokenEndpoint U e s).1.RegistrationEndpoint = "" ∨
        (assignDefaultTokenEndpoint U e s).1.TokenEndpoint = "") := by
    rw [hf]
    refine ⟨hapim, ?_⟩
    rcases hmiss with h | h | h | h
    · exact Or.inl h
    · exact Or.inr (Or.inl h)
    · exact Or.inr (Or.inr (Or.inl h))
    · exact Or.inr (Or.inr (Or.inr (Or.inl h)))
  rw [hc, if_pos hcond]
  refine ⟨rfl, hcfg, ?_⟩
  simp [ShowHelpCommandTip, addEnvCmdLiteral]

/-- C3 at the scenario of the specification: name "broken" with only the
registration endpoint "https://idp.com:9443". -/
theorem addEnv_incomplete_endpoints_witness :
    (addEnv sampleUtils "broken"
        { EnvEndpoints.zero with RegistrationEndpoint := "https://idp.com:9443" } "cfg"
        (freshProcess [])).err = some "Endpoint(s) cannot be blank" ∧
    (addEnv sampleUtils "broken"
        { EnvEndpoints.zero with RegistrationEndpoint := "https://idp.com:9443" } "cfg"
        (freshProcess [])).state.mainConfigFile = (freshProcess []).mainConfigFile ∧
    (addEnv sampleUtils "broken"
        { EnvEndpoints.zero with RegistrationEndpoint := "https://idp.com:9443" } "cfg"
        (freshProcess [])).state.console.getLast? =
      some (Output.showHelpCommandTip "add-env") :=
  addEnv_incomplete_endpoints sampleUtils "broken"
    { EnvEndpoints.zero with RegistrationEndpoint := "https://idp.com:9443" } "cfg"
    (freshProcess []) (by decide) (by decide) (by decide)

/-- C4 (as stated, refuted): the name "dev" is registered, yet a call for "dev" with
no endpoint at all returns the incomplete-endpoints error, not the duplicate
error, because the completeness check runs before the duplicate check. -/
theorem addEnv_duplicate_not_first :
    EnvExistsInMainConfigFile "dev" "cfg"
        (freshProcess
          [("dev", { EnvEndpoints.zero with ApiManagerEndpoint := "https://apim.com:9443" })]) =
      true ∧
    (addEnv sampleUtils "dev" EnvEndpoints.zero "cfg"
        (freshProcess
          [("dev", { EnvEndpoints.zero with ApiManagerEndpoint := "https://apim.com:9443" })])).err =
      some "Endpoint(s) cannot be blank" ∧
    (addEnv sampleUtils "dev" EnvEndpoints.zero "cfg"
        (freshProcess
          [("dev", { EnvEndpoints.zero with ApiManagerEndpoint := "https://apim.com:9443" })])).err ≠
      some ("Environment '" ++ "dev" ++ "' already exists in " ++ "cfg") := by
  decide

/-- C4 (amended): for a non-empty name that is already registered, (a) when the
endpoint set passes the completeness check (the API-manager endpoint is
non-empty, or the admin, devPortal, publisher and registration endpoints are
non-empty and the token endpoint is given or, the flag being unset, is derived
non-empty from the publisher endpoint), `addEnv` returns the error "Environment
'<name>' already exists in <path>"; (b) when the API-manager endpoint is empty
and one of the admin, devPortal, publisher and registration endpoints is empty,
or the token endpoint is empty and, the flag being unset, the publisher
derivation gives the empty string, `addEnv` returns "Endpoint(s) cannot be
blank" first.  In both cases the configuration file is left as it was. -/
theorem addEnv_duplicate_after_completeness (U : Utils) (envName : String)
    (e : EnvEndpoints) (path : String) (s : ProcessState) (hname : envName ≠ "")
    (hreg : EnvExistsInMainConfigFile envName path s = true) :
    ((e.ApiManagerEndpoint ≠ "" ∨
        (e.AdminEndpoint ≠ "" ∧ e.DevPortalEndpoint ≠ "" ∧ e.PublisherEndpoint ≠ "" ∧
          e.RegistrationEndpoint ≠ "" ∧
          (e.TokenEndpoint ≠ "" ∨
            (s.isDefaultTokenEndpointSet = false ∧
              U.GetTokenEndPointFromPublisherEndpoint e.PublisherEndpoint ≠ "")))) →
      (addEnv U envName e path s).err =
        some ("Environment '" ++ envName ++ "' already exists in " ++ path) ∧
      (addEnv U envName e path s).state.mainConfigFile = s.mainConfigFile) ∧
    ((e.ApiManagerEndpoint = "" ∧
        (e.AdminEndpoint = "" ∨ e.DevPortalEndpoint = "" ∨ e.PublisherEndpoint = "" ∨
          e.RegistrationEndpoint = "" ∨
          (e.TokenEndpoint = "" ∧ s.isDefaultTokenEndpointSet = false ∧
            U.GetTokenEndPointFromPublisherEndpoint e.PublisherEndpoint = ""))) →
      (addEnv U envName e path s).err = some "Endpoint(s) cannot be blank" ∧
      (addEnv U envName e path s).state.mainConfigFile = s.mainConfigFile) := by
  have hf := assignDefault_fields U e s
  constructor
  · intro hcomplete
    apply addEnv_registered U envName e path s hname hreg
    by_cases ha : e.ApiManagerEndpoint = ""
    · rcases hcomplete with h | ⟨h1, h2, h3, h4, h5⟩
      · exact absurd ha h
      · right
        rw [hf]
        refine ⟨h1, h2, h3, h4, ?_⟩
        by_cases ht : e.TokenEndpoint = ""
        · rcases h5 with h5 | ⟨h5, h6⟩
          · exact absurd ht h5
          · rw [assignDefault_of_publisher U e s ht ha h3 h5]
            exact h6
        · rw [assignDefault_of_token U e s ht]
          exact ht
    · left
      rw [hf]
      exact ha
  · rintro ⟨ha, hmiss⟩
    apply addEnv_incomplete U envName e path s hname
    rw [hf]
    refine ⟨ha, ?_⟩
    rcases hmiss with h | h | h | h | ⟨ht, hfl, hd⟩
    · exact Or.inl h
    · exact Or.inr (Or.inl h)
    · exact Or.inr (Or.inr (Or.inl h))
    · exact Or.inr (Or.inr (Or.inr (Or.inl h)))
    · refine Or.inr (Or.inr (Or.inr (Or.inr ?_)))
      by_cases hp : e.PublisherEndpoint = ""
      · rw [assignDefault_of_nothing U e s ht (Or.inr ⟨ha, hp⟩)]
        exact ht
      · rw [assignDefault_of_publisher U e s ht ha hp hfl]
        exact hd

/-- C4 (amended) at concrete inputs: "dev" is registered; registering it again with
only an API-manager endpoint gives the duplicate error, registering it again with
only a registration endpoint gives the incomplete-endpoints error. -/
theorem addEnv_duplicate_after_completeness_witness :
    EnvExistsInMainConfigFile "dev" "cfg"
        (freshProcess
          [("dev", { EnvEndpoints.zero with ApiManagerEndpoint := "https://apim.com:9443" })]) =
      true ∧
    (addEnv sampleUtils "dev"
        { EnvEndpoints.zero with ApiManagerEndpoint := "https://apim.com:9443" } "cfg"
        (freshProcess
          [("dev", { EnvEndpoints.zero with ApiManagerEndpoint := "https://apim.com:9443" })])).err =
      some ("Environment '" ++ "dev" ++ "' already exists in " ++ "cfg") ∧
    (addEnv sampleUtils "dev"
        { EnvEndpoints.zero with RegistrationEndpoint := "https://idp.com:9443" } "cfg"
        (freshProcess
          [("dev", { EnvEndpoints.zero with ApiManagerEndpoint := "https://apim.com:9443" })])).err =
      some "Endpoint(s) cannot be blank" :=
  ⟨by decide,
    ((addEnv_duplicate_after_completeness sampleUtils "dev"
      { EnvEndpoints.zero with ApiManagerEndpoint := "https://apim.com:9443" } "cfg"
      (freshProcess
        [("dev", { EnvEndpoints.zero with ApiManagerEndpoint := "https://apim.com:9443" })])
      (by decide) (by decide)).1 (Or.inl (by decide))).1,
    ((addEnv_duplicate_after_completeness sampleUtils "dev"
      { EnvEndpoints.zero with RegistrationEndpoint := "https://idp.com:9443" } "cfg"
      (freshProcess
        [("dev", { EnvEndpoints.zero with ApiManagerEndpoint := "https://apim.com:9443" })])
      (by decide) (by decide)).2 ⟨by decide, Or.inl (by decide)⟩).1⟩

/-- C5: when a first call of `addEnv` succeeds, a second call on the resulting
state with the same name and the same endpoint values (as the caller first gave
them, or as the first call left them in the caller's struct) returns the
duplicate error and leaves the configuration file exactly as the first call
left it, whether or not the first call set the flag. -/
theorem addEnv_twice_duplicate (U : Utils) (envName : String) (e : EnvEndpoints)
    (path : String) (s : ProcessState) (hok : (addEnv U envName e path s).err = none) :
    (addEnv U envName e path (addEnv U envName e path s).state).err =
      some ("Environment '" ++ envName ++ "' already exists in " ++ path) ∧
    (addEnv U envName e path (addEnv U envName e path s).state).state.mainConfigFile =
      (addEnv U envName e path s).state.mainConfigFile ∧
    (addEnv U envName (addEnv U envName e path s).envEndpoints path
        (addEnv U envName e path s).state).err =
      some ("Environment '" ++ envName ++ "' already exists in " ++ path) ∧
    (addEnv U envName (addEnv U envName e path s).envEndpoints path
        (addEnv U envName e path s).state).state.mainConfigFile =
      (addEnv U envName e path s).state.mainConfigFile := by
  obtain ⟨hname, hnone, hcomplete, hstore⟩ := addEnv_success U envName e path s hok
  have hflag := addEnv_flag U envName e path s hname
  have hee := addEnv_envEndpoints U envName e path s hname
  have hf := assignDefault_fields U e s
  have hreg : (mapLookup (addEnv U envName e path s).state.mainConfigFile.Environments
      envName).isSome = true := by
    rw [hstore, ← mapAssign_of_lookup_none _ _ _ hnone, mapLookup_mapAssign_self]
    rfl
  have h1 := addEnv_registered U envName e path (addEnv U envName e path s).state hname hreg
  have h2 := addEnv_registered U envName (addEnv U envName e path s).envEndpoints path
    (addEnv U envName e path s).state hname hreg
  have hfirst := h1 (by
    by_cases ha : e.ApiManagerEndpoint = ""
    · have hsame : (assignDefaultTokenEndpoint U e (addEnv U envName e path s).state).1 =
          (assignDefaultTokenEndpoint U e s).1 :=
        assignDefault_fst_congr U e _ _
          (hflag.trans (assignDefault_flag_of_no_apim U e s ha))
      rw [hsame]
      exact hcomplete
    · left
      rw [assignDefault_fields U e (addEnv U envName e path s).state]
      exact ha)
  have hsecond := h2 (by
    rw [hee]
    rcases hcomplete with h | ⟨h1, h2, h3, h4, h5⟩
    · left
      rw [assignDefault_fields U _ (addEnv U envName e path s).state]
      exact h
    · right
      rw [assignDefault_of_token U _ _ h5]
      exact ⟨h1, h2, h3, h4, h5⟩)
  exact ⟨hfirst.1, hfirst.2, hsecond.1, hsecond.2⟩

/-- C5 at a concrete input: "dev" with only an API-manager endpoint, added twice in
a new process; the first call sets the flag. -/
theorem addEnv_twice_duplicate_witness :
    (addEnv sampleUtils "dev"
        { EnvEndpoints.zero with ApiManagerEndpoint := "https://apim.com:9443" } "cfg"
        (freshProcess [])).err = none ∧
    (addEnv sampleUtils "dev"
        { EnvEndpoints.zero with ApiManagerEndpoint := "https://apim.com:9443" } "cfg"
        (addEnv sampleUtils "dev"
          { EnvEndpoints.zero with ApiManagerEndpoint := "https://apim.com:9443" } "cfg"
          (freshProcess [])).state).err =
      some ("Environment '" ++ "dev" ++ "' already exists in " ++ "cfg") :=
  ⟨by decide,
    (addEnv_twice_duplicate sampleUtils "dev"
      { EnvEndpoints.zero with ApiManagerEndpoint := "https://apim.com:9443" } "cfg"
      (freshProcess []) (by decide)).1⟩

/-- C6: if every record of the environment mapping is usable (API-manager endpoint
non-empty, or registration, publisher, devPortal, admin and token endpoints all
non-empty), then after any call of `addEnv`, failing or not and whatever the
flag, every record of the mapping is usable. -/
theorem addEnv_preserves_storeInvariant (U : Utils) (envName : String) (e : EnvEndpoints)
    (path : String) (s : ProcessState)
    (hinv : storeInvariant s.mainConfigFile.Environments) :
    storeInvariant (addEnv U envName e path s).state.mainConfigFile.Environments := by
  by_cases hok : (addEnv U envName e path s).err = none
  · obtain ⟨_, _, hcomplete, hstore⟩ := addEnv_success U envName e path s hok
    rw [hstore]
    intro p hp
    rcases List.mem_append.mp hp with hp | hp
    · exact hinv p hp
    · have hpe : p = (envName, (assignDefaultTokenEndpoint U e s).1) := by simpa using hp
      subst hpe
      rcases hcomplete with h | ⟨h1, h2, h3, h4, h5⟩
      · exact Or.inl h
      · exact Or.inr ⟨h4, h3, h2, h1, h5⟩
  · rw [addEnv_error_keeps_store U envName e path s hok]
    exact hinv

/-- C6 at a concrete input: a usable store and a successful registration. -/
theorem addEnv_preserves_storeInvariant_witness :
    storeInvariant
      (freshProcess
        [("dev", { EnvEndpoints.zero with
            ApiManagerEndpoint := "https://apim.com:9443" })]).mainConfigFile.Environments ∧
    storeInvariant
      (addEnv sampleUtils "test"
        { EnvEndpoints.zero with
          RegistrationEndpoint := "https://idp.com:9443",
          PublisherEndpoint := "https://apim.com:9443",
          DevPortalEndpoint := "https://apps.com:9443",
          AdminEndpoint := "https://apim.com:9443" } "cfg"
        (freshProcess
          [("dev", { EnvEndpoints.zero with
              ApiManagerEndpoint := "https://apim.com:9443" })])).state.mainConfigFile.Environments :=
  ⟨by decide,
    addEnv_preserves_storeInvariant sampleUtils "test"
      { EnvEndpoints.zero with
        RegistrationEndpoint := "https://idp.com:9443",
        PublisherEndpoint := "https://apim.com:9443",
        DevPortalEndpoint := "https://apps.com:9443",
        AdminEndpoint := "https://apim.com:9443" } "cfg"
      (freshProcess
        [("dev", { EnvEndpoints.zero with ApiManagerEndpoint := "https://apim.com:9443" })])
      (by decide)⟩

/-- Supporting fact for C7: in a process whose flag is still unset, a call with a
non-empty, not-yet-registered name, empty API-manager and token endpoints,
non-empty registration, publisher, devPortal and admin endpoints and a non-empty
publisher derivation succeeds and stores the derived token endpoint. -/
theorem addEnv_publisher_derivation_flag_unset (U : Utils) (envName : String)
    (e : EnvEndpoints) (path : String) (s : ProcessState) (hname : envName ≠ "")
    (hfresh : EnvExistsInMainConfigFile envName path s = false)
    (hapim : e.ApiManagerEndpoint = "") (htoken : e.TokenEndpoint = "")
    (hreg : e.RegistrationEndpoint ≠ "") (hpub : e.PublisherEndpoint ≠ "")
    (hdev : e.DevPortalEndpoint ≠ "") (hadmin : e.AdminEndpoint ≠ "")
    (hderived : U.GetTokenEndPointFromPublisherEndpoint e.PublisherEndpoint ≠ "")
    (hflag : s.isDefaultTokenEndpointSet = false) :
    (addEnv U envName e path s).err = none ∧
    mapLookup (addEnv U envName e path s).state.mainConfigFile.Environments envName =
      some { e with
        TokenEndpoint := U.GetTokenEndPointFromPublisherEndpoint e.PublisherEndpoint } := by
  have hc := addEnv_cases U envName e path s hname
  have hd := assignDefault_of_publisher U e s htoken hapim hpub hflag
  have hl : mapLookup s.mainConfigFile.Environments envName = none := by
    simpa [EnvExistsInMainConfigFile] using hfresh
  simp only [hd] at hc
  rw [hc]
  simp only [hapim, hreg, hpub, hdev, hadmin, hderived, or_self, and_false, if_false, hl,
    Option.isSome_none, Bool.false_eq_true]
  refine ⟨trivial, ?_⟩
  simp only [Printf]
  rw [← mapAssign_of_lookup_none _ _ _ hl]
  exact mapLookup_mapAssign_self _ _ _

/-- C7 (the code at the failing input): in a process where an earlier call has
derived a token endpoint from an API-manager endpoint, the call for the fresh
name "test" with the four endpoints of the scenario, no API-manager and no token
endpoint derives nothing and returns "Endpoint(s) cannot be blank"; nothing is
stored under "test". -/
theorem addEnv_publisher_second_call_fails (U : Utils) :
    (addEnv U "production"
        { EnvEndpoints.zero with ApiManagerEndpoint := "https://localhost:9443" } "cfg"
        (freshProcess [])).err = none ∧
    (addEnv U "test"
        { EnvEndpoints.zero with
          RegistrationEndpoint := "https://idp.com:9443",
          PublisherEndpoint := "https://apim.com:9443",
          DevPortalEndpoint := "https://apps.com:9443",
          AdminEndpoint := "https://apim.com:9443" } "cfg"
        (addEnv U "production"
          { EnvEndpoints.zero with ApiManagerEndpoint := "https://localhost:9443" } "cfg"
          (freshProcess [])).state).err = some "Endpoint(s) cannot be blank" ∧
    mapLookup
      (addEnv U "test"
        { EnvEndpoints.zero with
          RegistrationEndpoint := "https://idp.com:9443",
          PublisherEndpoint := "https://apim.com:9443",
          DevPortalEndpoint := "https://apps.com:9443",
          AdminEndpoint := "https://apim.com:9443" } "cfg"
        (addEnv U "production"
          { EnvEndpoints.zero with ApiManagerEndpoint := "https://localhost:9443" } "cfg"
          (freshProcess [])).state).state.mainConfigFile.Environments "test" = none := by
  simp [addEnv, assignDefaultTokenEndpoint, EnvExistsInMainConfigFile, GetMainConfigFromFile,
    WriteConfigFile, ShowHelpCommandTip, Printf, freshProcess, EnvEndpoints.zero, mapLookup,
    mapAssign, validatedEnvEndpoints]

/-- Supporting fact for C8: after a successful call of `addEnv` whose token endpoint
was given, or which ran with the flag unset, the environment mapping written to
the configuration file is the previous mapping, in which the name had no
binding, with the one binding `envName -> record` added; the record has the
caller's API-manager, registration, publisher, devPortal and admin endpoints
field by field, and as token endpoint the caller's when that is non-empty and
otherwise the value the derivation rule of the specification gives; every other
name keeps its record. -/
theorem addEnv_success_adds_one_binding_flag_unset (U : Utils) (envName : String)
    (e : EnvEndpoints) (path : String) (s : ProcessState)
    (hok : (addEnv U envName e path s).err = none)
    (hflag : s.isDefaultTokenEndpointSet = false ∨ e.TokenEndpoint ≠ "") :
    ∃ token : String,
      (if e.TokenEndpoint ≠ "" then token = e.TokenEndpoint
        else specDerivedToken U e = some token) ∧
      mapLookup s.mainConfigFile.Environments envName = none ∧
      (addEnv U envName e path s).state.mainConfigFile.Environments =
        s.mainConfigFile.Environments ++
          [(envName,
            { ApiManagerEndpoint := e.ApiManagerEndpoint,
              RegistrationEndpoint := e.RegistrationEndpoint,
              PublisherEndpoint := e.PublisherEndpoint,
              DevPortalEndpoint := e.DevPortalEndpoint,
              AdminEndpoint := e.AdminEndpoint,
              TokenEndpoint := token })] ∧
      mapLookup (addEnv U envName e path s).state.mainConfigFile.Environments envName =
        some
          { ApiManagerEndpoint := e.ApiManagerEndpoint,
            RegistrationEndpoint := e.RegistrationEndpoint,
            PublisherEndpoint := e.PublisherEndpoint,
            DevPortalEndpoint := e.DevPortalEndpoint,
            AdminEndpoint := e.AdminEndpoint,
            TokenEndpoint := token } ∧
      (∀ other : String, other ≠ envName →
        mapLookup (addEnv U envName e path s).state.mainConfigFile.Environments other =
          mapLookup s.mainConfigFile.Environments other) := by
  obtain ⟨_, hnone, hcomplete, hstore⟩ := addEnv_success U envName e path s hok
  have hf := assignDefault_fields U e s
  have htok : if e.TokenEndpoint ≠ "" then
      (assignDefaultTokenEndpoint U e s).1.TokenEndpoint = e.TokenEndpoint
      else specDerivedToken U e = some (assignDefaultTokenEndpoint U e s).1.TokenEndpoint := by
    by_cases ht : e.TokenEndpoint = ""
    · have hfl : s.isDefaultTokenEndpointSet = false := by
        rcases hflag with h | h
        · exact h
        · exact absurd ht h
      simp only [ne_eq, ht, not_true_eq_false, if_false]
      by_cases ha : e.ApiManagerEndpoint = ""
      · have hp : e.PublisherEndpoint ≠ "" := by
          rcases hcomplete with h | ⟨_, _, h3, _, _⟩
          · rw [hf] at h
            exact absurd ha h
          · rw [hf] at h3
            exact h3
        rw [assignDefault_of_publisher U e s ht ha hp hfl]
        simp [specDerivedToken, ha, hp]
      · rw [assignDefault_of_apim U e s ht ha hfl]
        simp [specDerivedToken, ha]
    · simp only [ne_eq, ht, not_false_eq_true, if_true]
      rw [assignDefault_of_token U e s ht]
  rw [hf] at hstore
  refine ⟨(assignDefaultTokenEndpoint U e s).1.TokenEndpoint, htok, hnone, hstore, ?_, ?_⟩
  · rw [hstore, ← mapAssign_of_lookup_none _ _ _ hnone]
    exact mapLookup_mapAssign_self _ _ _
  · intro other hne
    rw [hstore, ← mapAssign_of_lookup_none _ _ _ hnone]
    exact mapLookup_mapAssign_ne _ _ _ _ hne

/-- C8 (the code at the failing input): two calls in one process.  The second, for
the fresh name "dev" with an API-manager and a registration endpoint and no token
endpoint, succeeds and adds exactly one binding with the caller's fields, but the
token endpoint of the stored record is empty, whereas the derivation rule of the
specification gives the value derived from "https://apim.com:9443". -/
theorem addEnv_success_stores_underived_token (U : Utils) :
    (addEnv U "dev"
        { EnvEndpoints.zero with
          ApiManagerEndpoint := "https://apim.com:9443",
          RegistrationEndpoint := "https://idp.com:9443" } "cfg"
        (addEnv U "production"
          { EnvEndpoints.zero with ApiManagerEndpoint := "https://localhost:9443" } "cfg"
          (freshProcess [])).state).err = none ∧
    (addEnv U "dev"
        { EnvEndpoints.zero with
          ApiManagerEndpoint := "https://apim.com:9443",
          RegistrationEndpoint := "https://idp.com:9443" } "cfg"
        (addEnv U "production"
          { EnvEndpoints.zero with ApiManagerEndpoint := "https://localhost:9443" } "cfg"
          (freshProcess [])).state).state.mainConfigFile.Environments =
      (addEnv U "production"
          { EnvEndpoints.zero with ApiManagerEndpoint := "https://localhost:9443" } "cfg"
          (freshProcess [])).state.mainConfigFile.Environments ++
        [("dev",
          { ApiManagerEndpoint := "https://apim.com:9443",
            RegistrationEndpoint := "https://idp.com:9443",
            PublisherEndpoint := "",
            DevPortalEndpoint := "",
            AdminEndpoint := "",
            TokenEndpoint := "" })] ∧
    specDerivedToken U
        { EnvEndpoints.zero with
          ApiManagerEndpoint := "https://apim.com:9443",
          RegistrationEndpoint := "https://idp.com:9443" } =
      some (U.GetTokenEndPointFromAPIMEndpoint "https://apim.com:9443") := by
  simp [addEnv, assignDefaultTokenEndpoint, EnvExistsInMainConfigFile, GetMainConfigFromFile,
    WriteConfigFile, Printf, freshProcess, EnvEndpoints.zero, mapLookup, mapAssign,
    validatedEnvEndpoints, specDerivedToken]

/-- C9 (the code at the failing input): for the name "broken" with only a
registration endpoint, in a new process, no token endpoint is derived, and yet
the console receives the message "Default token endpoint '' is added as the
token endpoint", followed by the help tip; the call fails. -/
theorem addEnv_prints_default_message_without_derivation (U : Utils) :
    (addEnv U "broken"
        { EnvEndpoints.zero with RegistrationEndpoint := "https://idp.com:9443" } "cfg"
        (freshProcess [])).state.console =
      [Output.printf "Default token endpoint '' is added as the token endpoint \n",
        Output.showHelpCommandTip "add-env"] ∧
    (addEnv U "broken"
        { EnvEndpoints.zero with RegistrationEndpoint := "https://idp.com:9443" } "cfg"
        (freshProcess [])).envEndpoints.TokenEndpoint = "" ∧
    (addEnv U "broken"
        { EnvEndpoints.zero with RegistrationEndpoint := "https://idp.com:9443" } "cfg"
        (freshProcess [])).err = some "Endpoint(s) cannot be blank" := by
  simp [addEnv, assignDefaultTokenEndpoint, ShowHelpCommandTip, Printf, freshProcess,
    EnvEndpoints.zero, defaultTokenMessage, addEnvCmdLiteral]

/-- C10: the flag `isDefaultTokenEndpointSet` is never reset by a call of `addEnv`;
and once a call has derived a token endpoint from the API-manager endpoint
(non-empty name, empty token endpoint, non-empty API-manager endpoint, flag
unset), then after any number of further calls the flag is set, every call with
an empty token endpoint leaves it empty, a call with a non-empty name, empty
API-manager and token endpoints fails with "Endpoint(s) cannot be blank" even
when the registration, publisher, devPortal and admin endpoints are all given,
and a call with a fresh non-empty name, a non-empty API-manager endpoint and an
empty token endpoint succeeds and stores an empty token endpoint. -/
theorem addEnv_flag_leaks_across_calls (U : Utils) (s0 : ProcessState) (name1 : String)
    (e1 : EnvEndpoints) (path1 : String) (between : List Call)
    (hname1 : name1 ≠ "") (htoken1 : e1.TokenEndpoint = "")
    (hapim1 : e1.ApiManagerEndpoint ≠ "") (hflag0 : s0.isDefaultTokenEndpointSet = false) :
    (∀ (n : String) (e : EnvEndpoints) (p : String) (s : ProcessState),
      s.isDefaultTokenEndpointSet = true →
        (addEnv U n e p s).state.isDefaultTokenEndpointSet = true) ∧
    (addEnv U name1 e1 path1 s0).envEndpoints.TokenEndpoint =
      U.GetTokenEndPointFromAPIMEndpoint e1.ApiManagerEndpoint ∧
    (runCalls U between (addEnv U name1 e1 path1 s0).state).isDefaultTokenEndpointSet = true ∧
    (∀ (n : String) (e : EnvEndpoints) (p : String), e.TokenEndpoint = "" →
      (addEnv U n e p
        (runCalls U between (addEnv U name1 e1 path1 s0).state)).envEndpoints.TokenEndpoint =
        "") ∧
    (∀ (n : String) (e : EnvEndpoints) (p : String), n ≠ "" → e.ApiManagerEndpoint = "" →
      e.TokenEndpoint = "" →
      (addEnv U n e p (runCalls U between (addEnv U name1 e1 path1 s0).state)).err =
        some "Endpoint(s) cannot be blank") ∧
    (∀ (n : String) (e : EnvEndpoints) (p : String), n ≠ "" →
      EnvExistsInMainConfigFile n p (runCalls U between (addEnv U name1 e1 path1 s0).state) =
        false →
      e.ApiManagerEndpoint ≠ "" → e.TokenEndpoint = "" →
      (addEnv U n e p (runCalls U between (addEnv U name1 e1 path1 s0).state)).err = none ∧
      mapLookup
        (addEnv U n e p
          (runCalls U between
            (addEnv U name1 e1 path1 s0).state)).state.mainConfigFile.Environments n =
        some { e with TokenEndpoint := "" }) := by
  have hset1 : (addEnv U name1 e1 path1 s0).state.isDefaultTokenEndpointSet = true := by
    rw [addEnv_flag U name1 e1 path1 s0 hname1,
      assignDefault_of_apim U e1 s0 htoken1 hapim1 hflag0]
    rfl
  have hset := runCalls_flag_mono U between _ hset1
  have hderived : (addEnv U name1 e1 path1 s0).envEndpoints.TokenEndpoint =
      U.GetTokenEndPointFromAPIMEndpoint e1.ApiManagerEndpoint := by
    rw [addEnv_envEndpoints U name1 e1 path1 s0 hname1,
      assignDefault_of_apim U e1 s0 htoken1 hapim1 hflag0]
  refine ⟨fun n e p s hs => addEnv_flag_mono U n e p s hs, hderived, hset, ?_⟩
  generalize runCalls U between (addEnv U name1 e1 path1 s0).state = later at hset ⊢
  refine ⟨?_, ?_, ?_⟩
  · intro n e p ht
    by_cases hn : n = ""
    · subst hn
      simpa [addEnv] using ht
    · rw [addEnv_envEndpoints U n e p later hn, assignDefault_of_flag_set U e later hset]
      exact ht
  · intro n e p hn ha ht
    have hc := addEnv_cases U n e p later hn
    simp only at hc
    rw [hc, assignDefault_of_flag_set U e later hset, if_pos ⟨ha, by simp [ht]⟩]
    rfl
  · intro n e p hn hfresh ha ht
    have hl : mapLookup later.mainConfigFile.Environments n = none := by
      simpa [EnvExistsInMainConfigFile] using hfresh
    have hc := addEnv_cases U n e p later hn
    simp only at hc
    rw [hc, assignDefault_of_flag_set U e later hset]
    simp only [ha, false_and, if_false, hl, Option.isSome_none, Bool.false_eq_true]
    refine ⟨trivial, ?_⟩
    simp only [Printf]
    rw [← mapAssign_of_lookup_none _ _ _ hl, mapLookup_mapAssign_self]
    obtain ⟨a, r, pb, d, ad, t⟩ := e
    simp only at ht
    subst ht
    rfl

/-- C10 at a concrete input: "production" derives from its API-manager endpoint,
"dev" is added with an explicit token endpoint, and then "test" with the four
endpoints of the scenario fails with "Endpoint(s) cannot be blank". -/
theorem addEnv_flag_leaks_across_calls_witness :
    (addEnv sampleUtils "test"
        { EnvEndpoints.zero with
          RegistrationEndpoint := "https://idp.com:9443",
          PublisherEndpoint := "https://apim.com:9443",
          DevPortalEndpoint := "https://apps.com:9443",
          AdminEndpoint := "https://apim.com:9443" } "cfg"
        (runCalls sampleUtils
          [{ envName := "dev",
             envEndpoints :=
               { EnvEndpoints.zero with
                 ApiManagerEndpoint := "https://apim.com:9443",
                 TokenEndpoint := "https://gw.com:8243/token" },
             mainConfigFilePath := "cfg" }]
          (addEnv sampleUtils "production"
            { EnvEndpoints.zero with ApiManagerEndpoint := "https://localhost:9443" } "cfg"
            (freshProcess [])).state)).err = some "Endpoint(s) cannot be blank" :=
  (addEnv_flag_leaks_across_calls sampleUtils (freshProcess []) "production"
    { EnvEndpoints.zero with ApiManagerEndpoint := "https://localhost:9443" } "cfg"
    [{ envName := "dev",
       envEndpoints :=
         { EnvEndpoints.zero with
           ApiManagerEndpoint := "https://apim.com:9443",
           TokenEndpoint := "https://gw.com:8243/token" },
       mainConfigFilePath := "cfg" }]
    (by decide) (by decide) (by decide) (by decide)).2.2.2.2.1 "test"
    { EnvEndpoints.zero with
      RegistrationEndpoint := "https://idp.com:9443",
      PublisherEndpoint := "https://apim.com:9443",
      DevPortalEndpoint := "https://apps.com:9443",
      AdminEndpoint := "https://apim.com:9443" } "cfg" (by decide) (by decide) (by decide)

end ApimTooling
